import Mathlib

/-!
Shallow embedding of the Ockam identity/credential trust layer:
the Elixir NIF layer (`ockly/src/lib.rs`), the credentials retriever
(`credentials_retriever.rs`), and the session-gated relay behaviour
exercised by `forwarder.rs`. Library calls that live outside the
sampled source (the `ockam_identity` crate internals) are abstracted
as oracle parameters or, where a claim depends on their behaviour,
modelled from the spec and marked as such.
-/

namespace Ockly

/-- The rustler atoms declared in `mod atoms` of `lib.rs`. -/
inductive Atom where
  | credential_decode_error
  | credential_encode_error
  | credential_issuing_error
  | identity_import_error
  | credential_verification_failed
  | invalid_identifier
  | utf8_error
  | attest_error
  | attestation_encode_err
  | attestation_decode_err
  | purpose_key_type_not_supported
  | invalid_attest
  | invalid_state
  | invalid_secret
  | no_memory_vault
  | aws_kms
  deriving DecidableEq, Repr

/-- A rustler `Error`: either the generic `Error::BadArg` or `Error::Term(atom)`. -/
inductive NifError where
  | badArg
  | term (a : Atom)
  deriving DecidableEq, Repr

/-- `SecretType` tag attached to a `PublicKey` (only the variants the NIF uses). -/
inductive SecretType where
  | x25519
  | ed25519
  deriving DecidableEq, Repr

/-- `ockam_vault::PublicKey`: raw bytes plus a secret-type tag. -/
structure PublicKey where
  data : List Nat
  stype : SecretType
  deriving DecidableEq, Repr

/-- `Purpose` passed to `attest_purpose_key` (the NIF only ever uses `SecureChannel`). -/
inductive Purpose where
  | secureChannel
  | credentials
  deriving DecidableEq, Repr

/-- `PurposePublicKey`: the typed public key inside a verified purpose-key
attestation (`ockam_identity::models`). -/
inductive PurposePublicKey where
  | secureChannelStaticKey (k : List Nat)
  | credentialSigningKey (k : List Nat)
  deriving DecidableEq, Repr

/-- Result data of the library's attestation verification: the attested key. -/
structure PurposeKeyAttestationData where
  public_key : PurposePublicKey
  deriving DecidableEq, Repr

/-- The two process-wide registries of `lib.rs`: `IDENTITIES` and
`SIGNING_MEMORY_VAULT`, each an `Option` of an opaque handle. -/
structure NifState where
  identities : Option Nat
  signingMemoryVault : Option Nat
  deriving DecidableEq, Repr

/-- The initial state before `load` runs: both registries empty. -/
def NifState.initial : NifState := { identities := none, signingMemoryVault := none }

/-- `identities_ref()`: read the `IDENTITIES` registry, failing with the
`invalid_state` atom when it was never installed. -/
def identities_ref (s : NifState) : Except NifError Nat :=
  match s.identities with
  | some h => .ok h
  | none => .error (.term .invalid_state)

/-- `load_memory_vault()`: installs a fresh software signing vault and an
identities handle built over it, returning `true`. -/
def load_memory_vault (s : NifState) : Bool × NifState :=
  (true, { s with identities := some 0, signingMemoryVault := some 0 })

/-- `load_aws_vault()`: prints a message and returns `false`, installing nothing. -/
def load_aws_vault (s : NifState) : Bool × NifState :=
  (false, s)

/-- `load`: the NIF module's load hook. If the load datum decodes to the
`aws_kms` atom it takes the AWS branch, otherwise the memory-vault branch. -/
def load (load_data : Option Atom) (s : NifState) : Bool × NifState :=
  match load_data with
  | some a => if a = Atom.aws_kms then load_aws_vault s else load_memory_vault s
  | none => load_memory_vault s

end Ockly

namespace Ockly

/-- Oracle environment for `attest_purpose_key`: the library calls the NIF
wrapper makes, abstracted as functions (identifier parsing, the purpose-key
attestation call, CBOR encoding). -/
structure AttestEnv where
  parseIdentifier : String → Option String
  attest : String → Purpose → PublicKey → Option Nat
  encode : Nat → Option (List Nat)

/-- The request the NIF sends into `purpose_keys().attest_purpose_key`. -/
structure AttestRequest where
  identifier : String
  purpose : Purpose
  publicKey : PublicKey
  deriving DecidableEq, Repr

/-- `attest_purpose_key` NIF: checks the identities registry, parses the
identifier, types the supplied bytes as an X25519 public key, calls the
library attestation with purpose `SecureChannel`, and CBOR-encodes the
result. Returns the result together with the list of attestation requests
issued to the library. -/
def attest_purpose_key (s : NifState) (env : AttestEnv) (identifier : String)
    (public_key : List Nat) : Except NifError (List Nat) × List AttestRequest :=
  match identities_ref s with
  | .error e => (.error e, [])
  | .ok _ =>
    match env.parseIdentifier identifier with
    | none => (.error (.term .invalid_identifier), [])
    | some ident =>
      let k : PublicKey := { data := public_key, stype := .x25519 }
      let req : AttestRequest := { identifier := ident, purpose := .secureChannel, publicKey := k }
      match env.attest ident .secureChannel k with
      | none => (.error (.term .attest_error), [req])
      | some pk =>
        match env.encode pk with
        | none => (.error (.term .attestation_encode_err), [req])
        | some bytes => (.ok bytes, [req])

/-- Oracle environment for `verify_purpose_key_attestation`: CBOR decoding of
the attestation binary, identity import, and the library's attestation
verification (which yields the attested `PurposePublicKey` on success). -/
structure VerifyAttEnv where
  decodeAtt : List Nat → Option Nat
  importIdentity : List Nat → Option String
  libVerify : String → Nat → Option PurposeKeyAttestationData

/-- `verify_purpose_key_attestation` NIF: checks the identities registry,
CBOR-decodes the attestation, types the caller's bytes as an X25519 key `k`,
imports the identity, runs the library verification, then requires the
recovered key to be a `SecureChannelStaticKey` equal to `k`. -/
def verify_purpose_key_attestation (s : NifState) (env : VerifyAttEnv)
    (identity : List Nat) (public_key : List Nat) (att_bytes : List Nat) :
    Except NifError Bool :=
  match identities_ref s with
  | .error e => .error e
  | .ok _ =>
    match env.decodeAtt att_bytes with
    | none => .error (.term .attestation_decode_err)
    | some att =>
      let k : PublicKey := { data := public_key, stype := .x25519 }
      match env.importIdentity identity with
      | none => .error (.term .identity_import_error)
      | some ident =>
        match env.libVerify ident att with
        | none => .error (.term .attest_error)
        | some data =>
          match data.public_key with
          | .secureChannelStaticKey x =>
            if ({ data := x, stype := .x25519 } : PublicKey) = k then .ok true
            else .error (.term .invalid_attest)
          | .credentialSigningKey _ => .error (.term .purpose_key_type_not_supported)

/-- Oracle environment for `create_identity`: the library's identity creation
(with or without an existing key) and identity export. The created identity
is represented by its identifier string and an export oracle. -/
structure CreateIdentityEnv where
  createWithExistingKey : String → Option String
  createFresh : Option String
  exportIdentity : String → Option (List Nat)

/-- `create_identity` NIF: checks the identities registry, creates an identity
(binding a supplied existing key when one is given), exports it, and returns
`(identifier, exported bytes)`. Both the creation call and the export map
their library errors to the generic rustler `Error::BadArg`. -/
def create_identity (s : NifState) (env : CreateIdentityEnv)
    (existing_key : Option String) : Except NifError (String × List Nat) :=
  match identities_ref s with
  | .error e => .error e
  | .ok _ =>
    let created :=
      match existing_key with
      | some key => env.createWithExistingKey key
      | none => env.createFresh
    match created with
    | none => .error .badArg
    | some ident =>
      match env.exportIdentity ident with
      | none => .error .badArg
      | some exported => .ok (ident, exported)

/-- `check_identity` NIF: checks the identities registry, imports the identity
bytes, and returns the derived identifier. -/
def check_identity (s : NifState) (importIdentity : List Nat → Option String)
    (identity : List Nat) : Except NifError String :=
  match identities_ref s with
  | .error e => .error e
  | .ok _ =>
    match importIdentity identity with
    | none => .error (.term .identity_import_error)
    | some ident => .ok ident

/-- `import_signing_secret` NIF: reads the `SIGNING_MEMORY_VAULT` registry
(failing with `no_memory_vault` when absent) and imports the raw Ed25519
secret, failing with `invalid_secret` when the vault rejects it. -/
def import_signing_secret (s : NifState) (importKey : List Nat → Option String)
    (secret : List Nat) : Except NifError String :=
  match s.signingMemoryVault with
  | none => .error (.term .no_memory_vault)
  | some _ =>
    match importKey secret with
    | none => .error (.term .invalid_secret)
    | some handle => .ok handle

/-- Steps of the credential verification pipeline, recorded as a trace so the
order of stages can be reasoned about. -/
inductive VStep where
  | decodeStep
  | importStep
  | cryptoStep
  | subjectExpiryStep
  deriving DecidableEq, Repr

/-- The decoded payload of a `CredentialAndPurposeKeyAttestation` bundle:
issuer and subject identifiers, absolute expiry, and raw (byte-level)
attribute entries. -/
structure CredData where
  issuer : String
  subject : String
  expiresAt : Nat
  attrs : List (List Nat × List Nat)
  deriving DecidableEq, Repr

/-- Oracle environment for the `verify_credential` NIF: identifier parsing,
CBOR decoding, per-authority identity import, the signature-chain check
(the cryptographic part of the library's verification), UTF-8 decoding of
attribute bytes, and the current time. -/
structure VerifyCredEnv where
  parseIdentifier : String → Option String
  decodeCred : List Nat → Option CredData
  importAuthority : List Nat → Option String
  sigChainOk : CredData → Bool
  utf8 : List Nat → Option String
  now : Nat

/-- The `for authority in authorities` loop of `verify_credential`: import
each authority in order, collecting identifiers, stopping at the first
failure with the `identity_import_error` atom. Also returns one
`importStep` per import actually attempted. -/
def import_authorities (imp : List Nat → Option String) :
    List (List Nat) → Except NifError (List String) × List VStep
  | [] => (.ok [], [])
  | a :: rest =>
    match imp a with
    | none => (.error (.term .identity_import_error), [.importStep])
    | some i =>
      match import_authorities imp rest with
      | (.error e, tr) => (.error e, .importStep :: tr)
      | (.ok ids, tr) => (.ok (i :: ids), .importStep :: tr)

/-- Modelled from the spec: the body of `credentials().verify_credential`
(the `ockam_identity` credentials crate is not part of the sampled source).
Per §4.3/§5: the cryptographic phase (issuer membership in the trusted
authorities and the signature chain over attestation and credential) runs
first; only if it passes do the subject match and `now < expires_at` checks
run. Returns whether the credential is accepted plus the step trace. -/
def lib_verify_credential (expected : String) (trusted : List String)
    (c : CredData) (sigChainOk : CredData → Bool) (now : Nat) :
    Bool × List VStep :=
  if c.issuer ∈ trusted ∧ sigChainOk c = true then
    if c.subject = expected ∧ now < c.expiresAt then
      (true, [.cryptoStep, .subjectExpiryStep])
    else
      (false, [.cryptoStep, .subjectExpiryStep])
  else
    (false, [.cryptoStep])

/-- The attribute-decoding loop of `verify_credential`: each raw key and
value is decoded from UTF-8; any failure aborts with the `utf8_error` atom. -/
def decode_attrs (utf8 : List Nat → Option String) :
    List (List Nat × List Nat) → Except NifError (List (String × String))
  | [] => .ok []
  | (k, v) :: rest =>
    match utf8 k with
    | none => .error (.term .utf8_error)
    | some ks =>
      match utf8 v with
      | none => .error (.term .utf8_error)
      | some vs =>
        match decode_attrs utf8 rest with
        | .error e => .error e
        | .ok m => .ok ((ks, vs) :: m)

/-- `verify_credential` NIF: checks the identities registry, parses the
expected subject, decodes the credential bundle, imports every trusted
authority, runs the library verification, and UTF-8-decodes the attribute
map. Returns the result paired with the trace of pipeline steps. -/
def verify_credential (s : NifState) (env : VerifyCredEnv)
    (expected_subject : String) (authorities : List (List Nat))
    (credential : List Nat) :
    Except NifError (Nat × List (String × String)) × List VStep :=
  match identities_ref s with
  | .error e => (.error e, [])
  | .ok _ =>
    match env.parseIdentifier expected_subject with
    | none => (.error (.term .invalid_identifier), [])
    | some expected =>
      match env.decodeCred credential with
      | none => (.error (.term .credential_decode_error), [.decodeStep])
      | some cred =>
        match import_authorities env.importAuthority authorities with
        | (.error e, tr) => (.error e, .decodeStep :: tr)
        | (.ok ids, tr) =>
          match lib_verify_credential expected ids cred env.sigChainOk env.now with
          | (false, vtr) =>
            (.error (.term .credential_verification_failed), .decodeStep :: (tr ++ vtr))
          | (true, vtr) =>
            match decode_attrs env.utf8 cred.attrs with
            | .error e => (.error e, .decodeStep :: (tr ++ vtr))
            | .ok m => (.ok (cred.expiresAt, m), .decodeStep :: (tr ++ vtr))

/-- Oracle environment for the `issue_credential` NIF. -/
structure IssueEnv where
  parseIdentifier : String → Option String
  importIdentity : List Nat → Option String
  libIssue : String → String → List (String × String) → Nat → Option Nat
  encode : Nat → Option (List Nat)

/-- `issue_credential` NIF: checks the identities registry, parses the
subject identifier, imports the issuer identity, builds the attribute set,
calls the library's credential issuing, and CBOR-encodes the result. -/
def issue_credential (s : NifState) (env : IssueEnv) (issuer_identity : List Nat)
    (subject_identifier : String) (attrs : List (String × String))
    (duration : Nat) : Except NifError (List Nat) :=
  match identities_ref s with
  | .error e => .error e
  | .ok _ =>
    match env.parseIdentifier subject_identifier with
    | none => .error (.term .invalid_identifier)
    | some subject =>
      match env.importIdentity issuer_identity with
      | none => .error (.term .identity_import_error)
      | some issuer =>
        match env.libIssue issuer subject attrs duration with
        | none => .error (.term .credential_issuing_error)
        | some c =>
          match env.encode c with
          | none => .error (.term .credential_encode_error)
          | some bytes => .ok bytes

end Ockly

namespace CredModel

/-- Modelled from the spec: a credential per §3 — subject and issuer
identifiers, an attribute mapping, an absolute expiry, and a signature
(represented symbolically by the identity under whose purpose key the
credential was signed). The credential-subsystem internals of the
`ockam_identity` crate are not part of the sampled source. -/
structure Credential where
  subject : String
  issuer : String
  attributes : List (String × String)
  expiresAt : Nat
  signedBy : String
  deriving DecidableEq, Repr

/-- Modelled from the spec: `issue_credential` per §4.3 — builds the
attribute set, computes `expires_at = now + ttl_seconds`, and signs under
the issuer's purpose key. -/
def issue_credential (issuer subject : String) (attrs : List (String × String))
    (ttl now : Nat) : Credential :=
  { subject := subject
    issuer := issuer
    attributes := attrs
    expiresAt := now + ttl
    signedBy := issuer }

/-- Modelled from the spec: `verify_credential` acceptance per §3/§4.3 — the
signature must verify under the issuer's attested purpose key, the issuer
must be among the trusted authorities, the subject must match the expected
subject, and `now < expires_at`; on success returns the expiry and the
attribute mapping, otherwise fails with `credential_verification_failed`. -/
def verify_credential (expectedSubject : String) (trustedAuthorities : List String)
    (c : Credential) (now : Nat) :
    Except Ockly.Atom (Nat × List (String × String)) :=
  if c.signedBy = c.issuer ∧ c.issuer ∈ trustedAuthorities ∧
      c.subject = expectedSubject ∧ now < c.expiresAt then
    .ok (c.expiresAt, c.attributes)
  else
    .error .credential_verification_failed

end CredModel

namespace Retriever

/-- `CredentialsMemoryRetriever`: stores the bundle supplied at
construction time (`CredentialAndPurposeKey`, kept abstract). -/
structure CredentialsMemoryRetriever (α : Type) where
  credential_and_purpose_key : α

/-- `CredentialsMemoryRetriever::retrieve`: ignores the context and the
requested identity and returns a clone of the stored bundle. -/
def CredentialsMemoryRetriever.retrieve {α : Type}
    (r : CredentialsMemoryRetriever α) (_ctx : Nat) (_for_identity : String) :
    Except String α :=
  .ok r.credential_and_purpose_key

/-- Observable actions of `RemoteCredentialsRetriever::retrieve`, in the
order they are performed. -/
inductive RAction where
  | resolveRoute
  | askRequest
  | disconnect
  deriving DecidableEq, Repr

/-- Oracle environment for `RemoteCredentialsRetriever::retrieve`: the
result of `Context::resolve_transport_route_static` (a resolved route plus
an optional transport address), the result of the secure-client `ask` call,
and the `success()` conversion of the reply into a credential or protocol
error. -/
structure RemoteEnv (α : Type) where
  resolveTransportRoute : Except String (Nat × Option Nat)
  ask : Except String Nat
  success : Nat → Except String α

/-- `RemoteCredentialsRetriever::retrieve`: resolves the transport route
(propagating failure with `?`), performs a single `ask` request
(propagating failure with `?`), converts the reply with `success()`,
disconnects the transport when a transport address was resolved, and
returns the credential result unchanged. The performed actions are
returned alongside. -/
def RemoteCredentialsRetriever.retrieve {α : Type} (env : RemoteEnv α) :
    Except String α × List RAction :=
  match env.resolveTransportRoute with
  | .error e => (.error e, [.resolveRoute])
  | .ok (_resolved_route, transport_address) =>
    match env.ask with
    | .error e => (.error e, [.resolveRoute, .askRequest])
    | .ok reply =>
      let credential_result := env.success reply
      let actions :=
        [RAction.resolveRoute, RAction.askRequest] ++
          (match transport_address with
           | some _ => [RAction.disconnect]
           | none => [])
      (credential_result, actions)

end Retriever

namespace SessionModel

/-- Modelled from the spec: the Session Trust Registry together with the
relay admission rule of §4.5/§4.6 (the `Sessions` registry and forwarding
dispatch of `ockam_core`/`ockam` are not part of the sampled source, only
the test exercising them). `consumers` holds the `(address, session_id)`
pairs registered via `add_consumer`; `delivered` the messages that passed
admission; `dropped` counts messages dropped by admission control. -/
structure RelayState where
  consumers : List (String × String)
  delivered : List (String × String)
  dropped : Nat
  deriving DecidableEq, Repr

/-- Events of the relay scenario: a message sent through a relay tagged
with the relay's producer session id, or a consumer registration. -/
inductive Event where
  | send (sessionId addr body : String)
  | addConsumer (addr sessionId : String)
  deriving DecidableEq, Repr

/-- Modelled from the spec: one step of the relay dispatch. A message to
address `addr` under producer session `sid` is delivered only when
`(addr, sid)` is registered in the Session Trust Registry; otherwise it is
silently dropped with no retry. `add_consumer` registers a pair. -/
def step (s : RelayState) : Event → RelayState
  | .send sid addr body =>
    if (addr, sid) ∈ s.consumers then
      { s with delivered := s.delivered ++ [(addr, body)] }
    else
      { s with dropped := s.dropped + 1 }
  | .addConsumer addr sid =>
    { s with consumers := (addr, sid) :: s.consumers }

/-- The registry starts empty (a fresh `Sessions::default()`). -/
def initialState : RelayState :=
  { consumers := [], delivered := [], dropped := 0 }

/-- Run a sequence of events against the initial state. -/
def run (events : List Event) : RelayState :=
  events.foldl step initialState

end SessionModel

section Claims

open Ockly Retriever SessionModel

/-- C9: for every context and requested identity,
`CredentialsMemoryRetriever::retrieve` returns `Ok` with the bundle
supplied at construction; it never fails, and the returned bundle is the
same regardless of which `for_identity` (or context) is passed. -/
theorem C9_memory_retriever_always_ok {α : Type}
    (r : CredentialsMemoryRetriever α) (ctx ctx' : Nat) (i i' : String) :
    r.retrieve ctx i = .ok r.credential_and_purpose_key ∧
    r.retrieve ctx i = r.retrieve ctx' i' := by
  constructor <;> rfl

/-- C10: every attestation request the `attest_purpose_key` NIF issues to
the library has purpose `SecureChannel` and types the supplied public key
as X25519: no input through this interface produces a request for any
other purpose or key type. -/
theorem C10_attest_always_secure_channel_x25519
    (s : NifState) (env : AttestEnv) (identifier : String)
    (public_key : List Nat) (req : AttestRequest)
    (hmem : req ∈ (attest_purpose_key s env identifier public_key).2) :
    req.purpose = Purpose.secureChannel ∧
    req.publicKey.stype = SecretType.x25519 ∧
    req.publicKey.data = public_key := by
  unfold attest_purpose_key at hmem
  cases h1 : identities_ref s with
  | error e => simp [h1] at hmem
  | ok v =>
    cases h2 : env.parseIdentifier identifier with
    | none => simp [h1, h2] at hmem
    | some ident =>
      cases h3 : env.attest ident .secureChannel { data := public_key, stype := .x25519 } with
      | none =>
        simp [h1, h2, h3] at hmem
        subst hmem; exact ⟨rfl, rfl, rfl⟩
      | some pk =>
        cases h4 : env.encode pk with
        | none =>
          simp [h1, h2, h3, h4] at hmem
          subst hmem; exact ⟨rfl, rfl, rfl⟩
        | some bytes =>
          simp [h1, h2, h3, h4] at hmem
          subst hmem; exact ⟨rfl, rfl, rfl⟩

/-- Witness for C10 at a concrete input: a loaded state, an environment
whose oracles all succeed, and the single request actually issued. -/
theorem C10_attest_always_secure_channel_x25519_witness :
    ({ identifier := "I", purpose := .secureChannel,
       publicKey := { data := [1, 2], stype := .x25519 } } : AttestRequest).purpose
        = Purpose.secureChannel ∧
    ({ identifier := "I", purpose := .secureChannel,
       publicKey := { data := [1, 2], stype := .x25519 } } : AttestRequest).publicKey.stype
        = SecretType.x25519 ∧
    ({ identifier := "I", purpose := .secureChannel,
       publicKey := { data := [1, 2], stype := .x25519 } } : AttestRequest).publicKey.data
        = [1, 2] :=
  C10_attest_always_secure_channel_x25519
    { identities := some 0, signingMemoryVault := some 0 }
    { parseIdentifier := fun s => some s,
      attest := fun _ _ _ => some 7,
      encode := fun _ => some [] }
    "I" [1, 2] _ (by decide)

end Claims

section Claims2

open Ockly Retriever SessionModel

/-- C7: selecting the `aws_kms` vault backend at startup makes `load` return
`false` and install no identities/vault state (no silent fallback to the
memory vault), and every subsequent core operation on the uninitialized
state fails with the `invalid_state` atom. -/
theorem C7_aws_kms_fails_closed :
    load (some .aws_kms) NifState.initial = (false, NifState.initial) ∧
    (∀ env key, create_identity NifState.initial env key
        = .error (.term .invalid_state)) ∧
    (∀ env i pk, (attest_purpose_key NifState.initial env i pk).1
        = .error (.term .invalid_state)) ∧
    (∀ env i pk ab, verify_purpose_key_attestation NifState.initial env i pk ab
        = .error (.term .invalid_state)) ∧
    (∀ imp i, check_identity NifState.initial imp i
        = .error (.term .invalid_state)) ∧
    (∀ env ib si ats d, issue_credential NifState.initial env ib si ats d
        = .error (.term .invalid_state)) ∧
    (∀ env es au cr, (verify_credential NifState.initial env es au cr).1
        = .error (.term .invalid_state)) := by
  refine ⟨rfl, ?_, ?_, ?_, ?_, ?_, ?_⟩ <;> intros <;> rfl

/-- C4: in the relay scenario, a message sent to a destination address not
yet registered in the Session Trust Registry is not delivered (it is
dropped); after the address is registered as a consumer for the shared
session id, an identical message sent afterwards is delivered with the
same body, and exactly once — the earlier dropped message is never
retried. -/
theorem C4_session_admission (sid addr body : String) :
    (run [.send sid addr body]).delivered = [] ∧
    (run [.send sid addr body]).dropped = 1 ∧
    (run [.send sid addr body, .addConsumer addr sid, .send sid addr body]).delivered
        = [(addr, body)] ∧
    (run [.send sid addr body, .addConsumer addr sid, .send sid addr body]).dropped
        = 1 := by
  refine ⟨?_, ?_, ?_, ?_⟩ <;>
    simp [run, step, initialState, List.foldl]

/-- C8 counterexample: with a loaded state and a key whose import fails,
`create_identity` fails with the generic rustler `Error::BadArg`, which is
not an `identity_import_error`-kind term error as the claim states. -/
theorem C8_counterexample :
    create_identity { identities := some 0, signingMemoryVault := some 0 }
      { createWithExistingKey := fun _ => none,
        createFresh := some "I",
        exportIdentity := fun _ => some [] }
      (some "badkey") = .error .badArg ∧
    (NifError.badArg ≠ NifError.term .identity_import_error) :=
  ⟨rfl, by decide⟩

/-- C8 (amended): if importing/binding the supplied existing key fails,
`create_identity` fails with the generic rustler `Error::BadArg` (the NIF
maps the library error with `map_err(|_| Error::BadArg)`), not with an
`identity_import_error` atom. -/
theorem C8_create_identity_badarg (s : NifState) (env : CreateIdentityEnv)
    (key : String) (h : Nat) (hs : identities_ref s = .ok h)
    (hfail : env.createWithExistingKey key = none) :
    create_identity s env (some key) = .error .badArg := by
  unfold create_identity
  rw [hs]
  simp [hfail]

/-- Witness for C8 (amended) at a concrete input. -/
theorem C8_create_identity_badarg_witness :
    identities_ref { identities := some 0, signingMemoryVault := some 0 } = .ok 0 ∧
    create_identity { identities := some 0, signingMemoryVault := some 0 }
      { createWithExistingKey := fun _ => none,
        createFresh := some "I",
        exportIdentity := fun _ => some [7] }
      (some "k") = .error .badArg :=
  ⟨rfl, C8_create_identity_badarg _ _ "k" 0 rfl rfl⟩

/-- C1 counterexample: with ttl = 0 the round trip fails — the credential
expires at issuance time and the `now < expires_at` check rejects it, so
the claim does not hold for every ttl T. -/
theorem C1_counterexample :
    CredModel.verify_credential "S" ["I"]
      (CredModel.issue_credential "I" "S" [("k", "v")] 0 100) 100
      = .error .credential_verification_failed := by
  rfl

/-- C1 (amended): for every subject S, issuer I, attribute map A and
positive ttl T, a credential issued by I for S with attributes A and ttl T,
verified immediately (same `now`) with trusted authorities {I} and
expected subject S, succeeds and returns expiry `now + T` and attributes
equal to A. -/
theorem C1_round_trip (issuer subject : String)
    (attrs : List (String × String)) (ttl now : Nat) (h : 0 < ttl) :
    CredModel.verify_credential subject [issuer]
      (CredModel.issue_credential issuer subject attrs ttl now) now
      = .ok (now + ttl, attrs) := by
  unfold CredModel.verify_credential CredModel.issue_credential
  rw [if_pos]
  exact ⟨rfl, List.mem_singleton.mpr rfl, rfl, Nat.lt_add_of_pos_right h⟩

/-- Witness for C1 (amended) at a concrete input. -/
theorem C1_round_trip_witness :
    0 < 5 ∧
    CredModel.verify_credential "S" ["I"]
      (CredModel.issue_credential "I" "S" [("a", "b")] 5 100) 100
      = .ok (105, [("a", "b")]) :=
  ⟨by decide, C1_round_trip "I" "S" [("a", "b")] 5 100 (by decide)⟩

end Claims2

namespace Retriever

/-- A concrete environment where the secure-client `ask` call itself fails
(e.g. a network failure) after a transport address was resolved. -/
def envAskFails : RemoteEnv Nat :=
  { resolveTransportRoute := .ok (0, some 0),
    ask := .error "network failure",
    success := fun r => .ok r }

/-- A concrete environment where every step succeeds. -/
def envAllOk : RemoteEnv Nat :=
  { resolveTransportRoute := .ok (0, some 0),
    ask := .ok 5,
    success := fun r => .ok r }

end Retriever

section Claims3

open Ockly Retriever

/-- C5 counterexample: when the `ask` request itself fails, the `?` operator
propagates the error immediately and `retrieve` returns without any
disconnect attempt — refuting "regardless of whether the credential request
succeeds or fails, the retriever attempts to disconnect before returning". -/
theorem C5_counterexample :
    (RemoteCredentialsRetriever.retrieve envAskFails).1 = .error "network failure" ∧
    RAction.disconnect ∉ (RemoteCredentialsRetriever.retrieve envAskFails).2 := by
  constructor
  · rfl
  · simp [RemoteCredentialsRetriever.retrieve, envAskFails]

/-- C5 (amended): `RemoteCredentialsRetriever::retrieve` attempts the
disconnect before returning exactly when the `ask` call returns a reply
(whether that reply converts to a credential or to a protocol error) and a
transport address was resolved; a failure of route resolution or of the
`ask` call itself propagates unchanged with no disconnect attempt; and the
request is performed at most once (no retry). -/
theorem C5_remote_retrieve_disconnect {α : Type} (env : RemoteEnv α) :
    (∀ r addr reply,
        env.resolveTransportRoute = .ok (r, some addr) → env.ask = .ok reply →
        (RemoteCredentialsRetriever.retrieve env).1 = env.success reply ∧
        RAction.disconnect ∈ (RemoteCredentialsRetriever.retrieve env).2) ∧
    (∀ r ta e,
        env.resolveTransportRoute = .ok (r, ta) → env.ask = .error e →
        (RemoteCredentialsRetriever.retrieve env).1 = .error e ∧
        RAction.disconnect ∉ (RemoteCredentialsRetriever.retrieve env).2) ∧
    (∀ e, env.resolveTransportRoute = .error e →
        (RemoteCredentialsRetriever.retrieve env).1 = .error e ∧
        RAction.disconnect ∉ (RemoteCredentialsRetriever.retrieve env).2) ∧
    (RemoteCredentialsRetriever.retrieve env).2.count .askRequest ≤ 1 := by
  refine ⟨?_, ?_, ?_, ?_⟩
  · intro r addr reply hres hask
    simp [RemoteCredentialsRetriever.retrieve, hres, hask]
  · intro r ta e hres hask
    simp [RemoteCredentialsRetriever.retrieve, hres, hask]
  · intro e hres
    simp [RemoteCredentialsRetriever.retrieve, hres]
  · unfold RemoteCredentialsRetriever.retrieve
    cases hres : env.resolveTransportRoute with
    | error e => simp
    | ok p =>
      obtain ⟨r, ta⟩ := p
      cases hask : env.ask with
      | error e => simp [List.count_cons]
      | ok reply =>
        cases ta with
        | none => simp [List.count_cons]
        | some addr => simp [List.count_cons]

/-- Witness for C5 (amended) at a concrete input: with every step
succeeding, the result is the converted reply and a disconnect was
attempted. -/
theorem C5_remote_retrieve_disconnect_witness :
    (RemoteCredentialsRetriever.retrieve envAllOk).1 = envAllOk.success 5 ∧
    RAction.disconnect ∈ (RemoteCredentialsRetriever.retrieve envAllOk).2 :=
  (C5_remote_retrieve_disconnect envAllOk).1 0 0 5 rfl rfl

/-- C2: with the registry loaded, the attestation decoded, the identity
imported and the library verification succeeding with data `d`,
`verify_purpose_key_attestation` returns true only when the recovered
public key is the secure-channel static key equal to the supplied key; a
recovered secure-channel key different from the supplied one fails with
`invalid_attestation`; and a recovered key of any other purpose variant
fails with `purpose_key_type_not_supported`. -/
theorem C2_attestation_binding (s : NifState) (env : VerifyAttEnv)
    (identity public_key att_bytes : List Nat) (h a : Nat) (ident : String)
    (d : PurposeKeyAttestationData)
    (hs : identities_ref s = .ok h)
    (hdec : env.decodeAtt att_bytes = some a)
    (himp : env.importIdentity identity = some ident)
    (hver : env.libVerify ident a = some d) :
    (∀ b, verify_purpose_key_attestation s env identity public_key att_bytes = .ok b →
        b = true ∧ d.public_key = .secureChannelStaticKey public_key) ∧
    (d.public_key = .secureChannelStaticKey public_key →
        verify_purpose_key_attestation s env identity public_key att_bytes = .ok true) ∧
    (∀ x, d.public_key = .secureChannelStaticKey x → x ≠ public_key →
        verify_purpose_key_attestation s env identity public_key att_bytes
          = .error (.term .invalid_attest)) ∧
    (∀ x, d.public_key = .credentialSigningKey x →
        verify_purpose_key_attestation s env identity public_key att_bytes
          = .error (.term .purpose_key_type_not_supported)) := by
  have hkey : verify_purpose_key_attestation s env identity public_key att_bytes =
      (match d.public_key with
       | .secureChannelStaticKey x =>
         if ({ data := x, stype := .x25519 } : PublicKey)
             = { data := public_key, stype := .x25519 } then .ok true
         else .error (.term .invalid_attest)
       | .credentialSigningKey _ =>
         .error (.term .purpose_key_type_not_supported)) := by
    unfold verify_purpose_key_attestation
    simp only [hs, hdec, himp, hver]
  rw [hkey]
  refine ⟨?_, ?_, ?_, ?_⟩
  · intro b hb
    cases hd : d.public_key with
    | secureChannelStaticKey x =>
      rw [hd] at hb
      by_cases hx : x = public_key
      · subst hx
        simp at hb
        exact ⟨hb, rfl⟩
      · simp [PublicKey.mk.injEq, hx] at hb
    | credentialSigningKey x =>
      rw [hd] at hb
      simp at hb
  · intro hd
    rw [hd]
    simp
  · intro x hd hx
    rw [hd]
    simp [PublicKey.mk.injEq, hx]
  · intro x hd
    rw [hd]

/-- Witness for C2 at a concrete input: the library recovers the
secure-channel static key `[9]`, the caller supplies `[9]`, and the NIF
returns true. -/
theorem C2_attestation_binding_witness :
    verify_purpose_key_attestation
      { identities := some 0, signingMemoryVault := some 0 }
      { decodeAtt := fun _ => some 3,
        importIdentity := fun _ => some "I",
        libVerify := fun _ _ => some { public_key := .secureChannelStaticKey [9] } }
      [1] [9] [2] = .ok true :=
  (C2_attestation_binding
      { identities := some 0, signingMemoryVault := some 0 }
      { decodeAtt := fun _ => some 3,
        importIdentity := fun _ => some "I",
        libVerify := fun _ _ => some { public_key := .secureChannelStaticKey [9] } }
      [1] [9] [2] 0 3 "I"
      { public_key := .secureChannelStaticKey [9] } rfl rfl rfl rfl).2.1 rfl

end Claims3

namespace Ockly

/-- If some authority blob in the list fails to import, the authority-import
loop fails with the `identity_import_error` atom. -/
theorem import_authorities_fail (imp : List Nat → Option String) :
    ∀ l : List (List Nat), (∃ a ∈ l, imp a = none) →
      (import_authorities imp l).1 = .error (.term .identity_import_error)
  | [], hex => by simp at hex
  | a :: rest, hex => by
    unfold import_authorities
    cases hba : imp a with
    | none => rfl
    | some i =>
      have hex' : ∃ b ∈ rest, imp b = none := by
        obtain ⟨b, hb, hnone⟩ := hex
        rcases List.mem_cons.mp hb with h1 | h2
        · subst h1; rw [hba] at hnone; cases hnone
        · exact ⟨b, h2, hnone⟩
      have hrec := import_authorities_fail imp rest hex'
      cases hp : import_authorities imp rest with
      | mk res tr =>
        rw [hp] at hrec
        simp only at hrec
        cases res with
        | error er => simp only at hrec ⊢; rw [hrec]
        | ok ids => cases hrec

/-- Every step recorded by the authority-import loop is an `importStep`. -/
theorem import_authorities_trace (imp : List Nat → Option String) :
    ∀ (l : List (List Nat)) (x : VStep),
      x ∈ (import_authorities imp l).2 → x = VStep.importStep
  | [], x, hx => by simp [import_authorities] at hx
  | a :: rest, x, hx => by
    unfold import_authorities at hx
    cases hba : imp a with
    | none =>
      rw [hba] at hx
      simp only [List.mem_singleton] at hx
      exact hx
    | some i =>
      rw [hba] at hx
      cases hp : import_authorities imp rest with
      | mk res tr =>
        rw [hp] at hx
        cases res with
        | error er =>
          simp only [List.mem_cons] at hx
          rcases hx with h1 | h2
          · exact h1
          · exact import_authorities_trace imp rest x (by rw [hp]; exact h2)
        | ok ids =>
          simp only [List.mem_cons] at hx
          rcases hx with h1 | h2
          · exact h1
          · exact import_authorities_trace imp rest x (by rw [hp]; exact h2)

/-- If some attribute entry has a key or value that is not valid UTF-8, the
attribute-decoding loop fails with the `utf8_error` atom. -/
theorem decode_attrs_fail (utf8 : List Nat → Option String) :
    ∀ l : List (List Nat × List Nat),
      (∃ kv ∈ l, utf8 kv.1 = none ∨ utf8 kv.2 = none) →
      decode_attrs utf8 l = .error (.term .utf8_error)
  | [], hex => by simp at hex
  | (k, v) :: rest, hex => by
    unfold decode_attrs
    cases hk : utf8 k with
    | none => rfl
    | some ks =>
      cases hv : utf8 v with
      | none => rfl
      | some vs =>
        have hex' : ∃ kv ∈ rest, utf8 kv.1 = none ∨ utf8 kv.2 = none := by
          obtain ⟨kv, hkv, hnone⟩ := hex
          rcases List.mem_cons.mp hkv with h1 | h2
          · subst h1
            rcases hnone with hn | hn
            · rw [hk] at hn; cases hn
            · rw [hv] at hn; cases hn
          · exact ⟨kv, h2, hnone⟩
        have hrec := decode_attrs_fail utf8 rest hex'
        rw [hrec]

end Ockly

section Claims4

open Ockly

/-- C3: with the registry loaded and a well-formed expected subject, the
`verify_credential` NIF maps each failure to its specific error kind —
malformed credential bytes to `credential_decode_error`, a trusted-authority
blob that fails to import to `identity_import_error`, a failed library
verification (issuer membership, signatures, subject, expiry) to
`credential_verification_failed`, non-UTF8 attribute bytes to `utf8_error` —
and a success is possible only when every stage succeeded, with the full
decoded attribute map (no partial results on failure, by the result type). -/
theorem C3_verify_credential_errors (s : NifState) (env : VerifyCredEnv)
    (es : String) (auths : List (List Nat)) (cred : List Nat)
    (h : Nat) (e : String)
    (hs : identities_ref s = .ok h)
    (hparse : env.parseIdentifier es = some e) :
    (env.decodeCred cred = none →
        (verify_credential s env es auths cred).1
          = .error (.term .credential_decode_error)) ∧
    (∀ c, env.decodeCred cred = some c →
        (∃ a ∈ auths, env.importAuthority a = none) →
        (verify_credential s env es auths cred).1
          = .error (.term .identity_import_error)) ∧
    (∀ c ids tr, env.decodeCred cred = some c →
        import_authorities env.importAuthority auths = (.ok ids, tr) →
        (lib_verify_credential e ids c env.sigChainOk env.now).1 = false →
        (verify_credential s env es auths cred).1
          = .error (.term .credential_verification_failed)) ∧
    (∀ c ids tr, env.decodeCred cred = some c →
        import_authorities env.importAuthority auths = (.ok ids, tr) →
        (lib_verify_credential e ids c env.sigChainOk env.now).1 = true →
        (∃ kv ∈ c.attrs, env.utf8 kv.1 = none ∨ env.utf8 kv.2 = none) →
        (verify_credential s env es auths cred).1
          = .error (.term .utf8_error)) ∧
    (∀ p, (verify_credential s env es auths cred).1 = .ok p →
        ∃ c ids tr m, env.decodeCred cred = some c ∧
          import_authorities env.importAuthority auths = (.ok ids, tr) ∧
          (lib_verify_credential e ids c env.sigChainOk env.now).1 = true ∧
          decode_attrs env.utf8 c.attrs = .ok m ∧
          p = (c.expiresAt, m)) := by
  refine ⟨?_, ?_, ?_, ?_, ?_⟩
  · intro hdec
    unfold verify_credential
    simp only [hs, hdec, hparse]
  · intro c hdec hex
    have hfail := import_authorities_fail env.importAuthority auths hex
    cases hp : import_authorities env.importAuthority auths with
    | mk res tr =>
      rw [hp] at hfail
      simp only at hfail
      cases res with
      | error er =>
        simp only [Except.error.injEq] at hfail
        unfold verify_credential
        simp only [hs, hparse, hdec, hp, hfail]
      | ok ids => cases hfail
  · intro c ids tr hdec hp hfalse
    cases hl : lib_verify_credential e ids c env.sigChainOk env.now with
    | mk b vtr =>
      rw [hl] at hfalse
      simp only at hfalse
      subst hfalse
      unfold verify_credential
      simp only [hs, hparse, hdec, hp, hl]
  · intro c ids tr hdec hp htrue hex
    cases hl : lib_verify_credential e ids c env.sigChainOk env.now with
    | mk b vtr =>
      rw [hl] at htrue
      simp only at htrue
      subst htrue
      have hda := decode_attrs_fail env.utf8 c.attrs hex
      unfold verify_credential
      simp only [hs, hparse, hdec, hp, hl, hda]
  · intro p hok
    cases hdec : env.decodeCred cred with
    | none =>
      have hv : (verify_credential s env es auths cred).1
          = .error (.term .credential_decode_error) := by
        unfold verify_credential
        simp only [hs, hparse, hdec]
      rw [hv] at hok; cases hok
    | some c =>
      cases hp : import_authorities env.importAuthority auths with
      | mk res tr =>
        cases res with
        | error er =>
          have hv : (verify_credential s env es auths cred).1 = .error er := by
            unfold verify_credential
            simp only [hs, hparse, hdec, hp]
          rw [hv] at hok; cases hok
        | ok ids =>
          cases hl : lib_verify_credential e ids c env.sigChainOk env.now with
          | mk b vtr =>
            cases b with
            | false =>
              have hv : (verify_credential s env es auths cred).1
                  = .error (.term .credential_verification_failed) := by
                unfold verify_credential
                simp only [hs, hparse, hdec, hp, hl]
              rw [hv] at hok; cases hok
            | true =>
              cases hda : decode_attrs env.utf8 c.attrs with
              | error er =>
                have hv : (verify_credential s env es auths cred).1 = .error er := by
                  unfold verify_credential
                  simp only [hs, hparse, hdec, hp, hl, hda]
                rw [hv] at hok; cases hok
              | ok m =>
                have hv : (verify_credential s env es auths cred).1
                    = .ok (c.expiresAt, m) := by
                  unfold verify_credential
                  simp only [hs, hparse, hdec, hp, hl, hda]
                rw [hv] at hok
                simp only [Except.ok.injEq] at hok
                exact ⟨c, ids, tr, m, rfl, rfl, by rw [hl], hda, hok.symm⟩

/-- Witness for C3 at a concrete input: malformed credential bytes fail
with `credential_decode_error`. -/
theorem C3_verify_credential_errors_witness :
    (verify_credential { identities := some 0, signingMemoryVault := some 0 }
      { parseIdentifier := fun s => some s,
        decodeCred := fun _ => none,
        importAuthority := fun _ => some "A",
        sigChainOk := fun _ => true,
        utf8 := fun _ => some "x",
        now := 0 }
      "S" [] [1, 2, 3]).1 = .error (.term .credential_decode_error) :=
  (C3_verify_credential_errors
    { identities := some 0, signingMemoryVault := some 0 }
    { parseIdentifier := fun s => some s,
      decodeCred := fun _ => none,
      importAuthority := fun _ => some "A",
      sigChainOk := fun _ => true,
      utf8 := fun _ => some "x",
      now := 0 }
    "S" [] [1, 2, 3] 0 "S" rfl rfl).1 rfl

end Claims4

namespace Ockly

/-- Trace shape of the modelled library verification: the cryptographic
phase always runs first; the subject/expiry phase runs exactly when the
cryptographic phase passed. -/
theorem lib_verify_trace (expected : String) (trusted : List String)
    (c : CredData) (sig : CredData → Bool) (now : Nat) :
    (c.issuer ∈ trusted ∧ sig c = true →
        (lib_verify_credential expected trusted c sig now).2
          = [.cryptoStep, .subjectExpiryStep]) ∧
    (¬(c.issuer ∈ trusted ∧ sig c = true) →
        lib_verify_credential expected trusted c sig now
          = (false, [.cryptoStep])) := by
  constructor <;> intro hcond <;> unfold lib_verify_credential
  · rw [if_pos hcond]
    by_cases h2 : c.subject = expected ∧ now < c.expiresAt
    · rw [if_pos h2]
    · rw [if_neg h2]
  · rw [if_neg hcond]

end Ockly

section Claims5

open Ockly

/-- C6: in `verify_credential` the stages occur in strict order — decode
the bundle, then import the trusted authorities, then the cryptographic
signature-chain check, then the subject/expiry checks. A decode failure is
reported with a trace containing only the decode step (so before any
authority import and before any cryptographic work); an import step implies
the decode succeeded; a cryptographic step implies decode and all imports
succeeded; a subject/expiry step implies the cryptographic phase ran and
passed. -/
theorem C6_verify_credential_order (s : NifState) (env : VerifyCredEnv)
    (es : String) (auths : List (List Nat)) (cred : List Nat)
    (h : Nat) (e : String)
    (hs : identities_ref s = .ok h)
    (hparse : env.parseIdentifier es = some e) :
    (env.decodeCred cred = none →
        (verify_credential s env es auths cred).2 = [.decodeStep] ∧
        (verify_credential s env es auths cred).1
          = .error (.term .credential_decode_error)) ∧
    (VStep.importStep ∈ (verify_credential s env es auths cred).2 →
        ∃ c, env.decodeCred cred = some c) ∧
    (VStep.cryptoStep ∈ (verify_credential s env es auths cred).2 →
        ∃ c ids tr, env.decodeCred cred = some c ∧
          import_authorities env.importAuthority auths = (.ok ids, tr)) ∧
    (VStep.subjectExpiryStep ∈ (verify_credential s env es auths cred).2 →
        VStep.cryptoStep ∈ (verify_credential s env es auths cred).2 ∧
        ∃ c ids tr, env.decodeCred cred = some c ∧
          import_authorities env.importAuthority auths = (.ok ids, tr) ∧
          c.issuer ∈ ids ∧ env.sigChainOk c = true) := by
  refine ⟨?_, ?_, ?_, ?_⟩
  · intro hdec
    constructor <;> (unfold verify_credential; simp only [hs, hparse, hdec])
  · intro hmem
    cases hdec : env.decodeCred cred with
    | none =>
      have hv2 : (verify_credential s env es auths cred).2 = [.decodeStep] := by
        unfold verify_credential
        simp only [hs, hparse, hdec]
      rw [hv2] at hmem
      simp at hmem
    | some c => exact ⟨c, rfl⟩
  · intro hmem
    cases hdec : env.decodeCred cred with
    | none =>
      have hv2 : (verify_credential s env es auths cred).2 = [.decodeStep] := by
        unfold verify_credential
        simp only [hs, hparse, hdec]
      rw [hv2] at hmem
      simp at hmem
    | some c =>
      cases hp : import_authorities env.importAuthority auths with
      | mk res tr =>
        cases res with
        | error er =>
          have hv2 : (verify_credential s env es auths cred).2
              = .decodeStep :: tr := by
            unfold verify_credential
            simp only [hs, hparse, hdec, hp]
          rw [hv2] at hmem
          simp only [List.mem_cons] at hmem
          rcases hmem with h1 | h2
          · cases h1
          · have := import_authorities_trace env.importAuthority auths
              VStep.cryptoStep (by rw [hp]; exact h2)
            cases this
        | ok ids => exact ⟨c, ids, tr, rfl, rfl⟩
  · intro hmem
    cases hdec : env.decodeCred cred with
    | none =>
      have hv2 : (verify_credential s env es auths cred).2 = [.decodeStep] := by
        unfold verify_credential
        simp only [hs, hparse, hdec]
      rw [hv2] at hmem
      simp at hmem
    | some c =>
      cases hp : import_authorities env.importAuthority auths with
      | mk res tr =>
        cases res with
        | error er =>
          have hv2 : (verify_credential s env es auths cred).2
              = .decodeStep :: tr := by
            unfold verify_credential
            simp only [hs, hparse, hdec, hp]
          rw [hv2] at hmem
          simp only [List.mem_cons] at hmem
          rcases hmem with h1 | h2
          · cases h1
          · have := import_authorities_trace env.importAuthority auths
              VStep.subjectExpiryStep (by rw [hp]; exact h2)
            cases this
        | ok ids =>
          by_cases hcond : c.issuer ∈ ids ∧ env.sigChainOk c = true
          · cases hl : lib_verify_credential e ids c env.sigChainOk env.now with
            | mk b vtr =>
              have hvtr := (lib_verify_trace e ids c env.sigChainOk env.now).1 hcond
              rw [hl] at hvtr
              simp only at hvtr
              subst hvtr
              have hv2 : (verify_credential s env es auths cred).2
                  = .decodeStep :: (tr ++ [.cryptoStep, .subjectExpiryStep]) := by
                unfold verify_credential
                cases b with
                | false => simp only [hs, hparse, hdec, hp, hl]
                | true =>
                  cases hda : decode_attrs env.utf8 c.attrs with
                  | error er => simp only [hs, hparse, hdec, hp, hl, hda]
                  | ok m => simp only [hs, hparse, hdec, hp, hl, hda]
              refine ⟨?_, c, ids, tr, rfl, rfl, hcond.1, hcond.2⟩
              rw [hv2]
              simp
          · have hlv := (lib_verify_trace e ids c env.sigChainOk env.now).2 hcond
            have hv2 : (verify_credential s env es auths cred).2
                = .decodeStep :: (tr ++ [.cryptoStep]) := by
              unfold verify_credential
              simp only [hs, hparse, hdec, hp, hlv]
            rw [hv2] at hmem
            simp only [List.mem_cons, List.mem_append, List.mem_singleton] at hmem
            rcases hmem with h1 | h2 | h3 | h4
            · cases h1
            · have := import_authorities_trace env.importAuthority auths
                VStep.subjectExpiryStep (by rw [hp]; exact h2)
              cases this
            · cases h3
            · cases h4

/-- Witness for C6 at a concrete input: with malformed credential bytes the
trace is exactly the decode step and the result is the decode error. -/
theorem C6_verify_credential_order_witness :
    (verify_credential { identities := some 0, signingMemoryVault := some 0 }
      { parseIdentifier := fun s => some s,
        decodeCred := fun _ => none,
        importAuthority := fun _ => some "A",
        sigChainOk := fun _ => true,
        utf8 := fun _ => some "x",
        now := 3 }
      "S" [[4]] [1, 2]).2 = [.decodeStep] ∧
    (verify_credential { identities := some 0, signingMemoryVault := some 0 }
      { parseIdentifier := fun s => some s,
        decodeCred := fun _ => none,
        importAuthority := fun _ => some "A",
        sigChainOk := fun _ => true,
        utf8 := fun _ => some "x",
        now := 3 }
      "S" [[4]] [1, 2]).1 = .error (.term .credential_decode_error) :=
  (C6_verify_credential_order
    { identities := some 0, signingMemoryVault := some 0 }
    { parseIdentifier := fun s => some s,
      decodeCred := fun _ => none,
      importAuthority := fun _ => some "A",
      sigChainOk := fun _ => true,
      utf8 := fun _ => some "x",
      now := 3 }
    "S" [[4]] [1, 2] 0 "S" rfl rfl).1 rfl

end Claims5
